import Mathlib

/-!
Verification of the fix-apply-retry agent in `generated_agent/agent.py` and the
generator loop in `smol_dev.py`.

The Python code is shallowly embedded: file system state is an association
list from full path strings to file contents, external collaborators (the
test runner subprocess and the language-model oracle) are parameters of the
model, and Python exceptions are modelled by explicit outcome constructors.
Each definition is translated from the corresponding function of the source.
-/

set_option autoImplicit false

namespace Agent

/-! ## Python string primitives used by `agent.py` and `smol_dev.py` -/

/-- Python `str.replace(pat, rep)`: replace every non-overlapping occurrence
of `pat`, scanning left to right.  The first argument is recursion fuel,
always called with the length of the text, which bounds the number of steps
since every step consumes at least one character. -/
def replaceAux (pat rep : List Char) : Nat → List Char → List Char
  | _, [] => []
  | 0, l => l
  | fuel + 1, c :: t =>
    if pat.isPrefixOf (c :: t) then
      rep ++ replaceAux pat rep fuel (t.drop (pat.length - 1))
    else c :: replaceAux pat rep fuel t

/-- (Never called with an empty pattern in the source; the empty-pattern
branch returns the input unchanged.) -/
def pyReplace (s pat rep : String) : String :=
  if pat.data.isEmpty then s
  else String.mk (replaceAux pat.data rep.data s.data.length s.data)

/-- The characters Python `str.strip()` removes (string.whitespace). -/
def isPySpace (c : Char) : Bool :=
  c == ' ' || c == '\t' || c == '\n' || c == '\r' || c == '\x0b' || c == '\x0c'

/-- Python `str.strip()`. -/
def pyStrip (s : String) : String :=
  String.mk (((s.data.dropWhile isPySpace).reverse.dropWhile isPySpace).reverse)

/-! ## Path extraction from diagnostic text (`agent.py` lines 79-91)

`generate_fix` first runs `re.search(r"(\.\/.*?\.py):", stderr)` and, only if
that fails, `re.search(r"([\w\/\\]+\.py):", stderr)`.  Both regexes are
embedded below with Python `re` semantics: leftmost starting position wins;
`.*?` is lazy and does not cross newlines; `[\w\/\\]+` is greedy, and since
`.` is not in that character class only the maximal run can be followed by
`\.py:`, so no backtracking case is lost. `\w` is modelled as ASCII
alphanumerics plus underscore. -/

/-- Does the text start with the four characters `.py:`? -/
def pyColonAt (l : List Char) : Bool :=
  match l with
  | c1 :: c2 :: c3 :: c4 :: _ => c1 == '.' && c2 == 'p' && c3 == 'y' && c4 == ':'
  | _ => false

/-- Does `.py:` occur anywhere in the text?  A necessary condition for either
regex of `generate_fix` to match. -/
def hasPyColon : List Char → Bool
  | [] => false
  | c :: t => pyColonAt (c :: t) || hasPyColon t

/-- Lazy scan for `.*?\.py:` — at each step first try to match `\.py:` here
(`.*?` prefers the shortest middle), otherwise let `.` consume one
non-newline character. Returns the characters consumed by `.*?`. -/
def scanLazy : List Char → Option (List Char)
  | [] => none
  | c :: t =>
    if pyColonAt (c :: t) then some []
    else if c == '\n' then none
    else (scanLazy t).map (fun m => c :: m)

/-- Attempt `(\.\/.*?\.py):` anchored at the current position; returns
capture group 1. -/
def matchAt1 (l : List Char) : Option (List Char) :=
  match l with
  | c1 :: c2 :: rest =>
    if c1 == '.' && c2 == '/' then
      (scanLazy rest).map (fun m => c1 :: c2 :: (m ++ ['.', 'p', 'y']))
    else none
  | _ => none

/-- `re.search` for the first pattern: try every start position left to right. -/
def search1 : List Char → Option (List Char)
  | [] => none
  | c :: t =>
    match matchAt1 (c :: t) with
    | some g => some g
    | none => search1 t

/-- The character class `[\w\/\\]` (ASCII reading of `\w`). -/
def wordClass (c : Char) : Bool :=
  c.isAlphanum || c == '_' || c == '/' || c == '\\'

/-- Attempt `([\w\/\\]+\.py):` anchored at the current position.  The greedy
`+` takes the maximal class run; shorter runs would have to be followed by a
`.` that is itself a class character, which is impossible, so only the
maximal run is checked. -/
def matchAt2 (l : List Char) : Option (List Char) :=
  let run := l.takeWhile wordClass
  if run.length == 0 then none
  else if pyColonAt (l.drop run.length) then some (run ++ ['.', 'p', 'y'])
  else none

/-- `re.search` for the fallback pattern. -/
def search2 : List Char → Option (List Char)
  | [] => none
  | c :: t =>
    match matchAt2 (c :: t) with
    | some g => some g
    | none => search2 t

/-- Lines 79-85 of `agent.py`: the relative-path pattern first, the permissive
pattern only on its failure, `None` when both fail. -/
def extractPathFromStderr (stderrText : String) : Option String :=
  match search1 stderrText.data with
  | some g => some (String.mk g)
  | none => (search2 stderrText.data).map String.mk

/-- Lines 87-91 of `agent.py`: `match.group(1).replace("\\", "/")` and then
strip a leading `./`. -/
def cleanupPath (p : String) : String :=
  let q := pyReplace p "\\" "/"
  if ("./".data).isPrefixOf q.data then String.mk (q.data.drop 2) else q

/-- Extraction followed by cleanup, the file reference `generate_fix` works with. -/
def extractedRef (stderrText : String) : Option String :=
  (extractPathFromStderr stderrText).map cleanupPath

/-! ## Fence stripping (`agent.py` line 142) -/

/-- `fixed_code.replace("```python", "").replace("```", "").strip()`. -/
def stripFences (s : String) : String :=
  pyStrip (pyReplace (pyReplace s "```python" "") "```" "")

/-! ## File system model

Files are an association list from full path strings to contents.  `os.walk`
of the target tree is part of the environment (its order is decided by the
operating system); each entry is a `(root, filenames)` pair as in Python. -/

abbrev Files := List (String × String)

def lookupFile : Files → String → Option String
  | [], _ => none
  | (q, d) :: t, p => if q = p then some d else lookupFile t p

/-- `os.path.exists` restricted to the modelled files. -/
def pathExists (fs : Files) (p : String) : Bool :=
  (lookupFile fs p).isSome

/-- `open(p, "w").write(c)`: whole-file overwrite, creating the file if absent. -/
def writeFile : Files → String → String → Files
  | [], p, c => [(p, c)]
  | (q, d) :: t, p, c => if q = p then (p, c) :: t else (q, d) :: writeFile t p c

def TARGET_DIR : String := "../target_project/"

def MAX_ATTEMPTS : Nat := 3

/-- `os.path.join` (POSIX): an absolute second component wins; otherwise a
separator is inserted unless one is already there. -/
def joinPath (a b : String) : String :=
  if ("/".data).isPrefixOf b.data then b
  else if a = "" then b
  else if a.data.getLast? = some '/' then a ++ b
  else a ++ "/" ++ b

/-- `os.path.basename` (POSIX): the part after the last slash. -/
def basename (p : String) : String :=
  String.mk ((p.data.reverse.takeWhile (fun c => c != '/')).reverse)

/-- Lines 97-103 of `agent.py`: walk the target tree and take the first
directory whose file list contains the base name; `None` when the `for` loop
finishes without a `break` (the `else` arm, lines 104-110). -/
def findInWalk : List (String × List String) → String → Option String
  | [], _ => none
  | (root, files) :: t, b =>
    if b ∈ files then some (joinPath root b) else findInWalk t b

/-- Lines 93-110 of `agent.py`: join the extracted path under `TARGET_DIR`;
if it does not exist, fall back to the recursive base-name search. -/
def resolveTarget (fs : Files) (walk : List (String × List String)) (p : String) :
    Option String :=
  let full := joinPath TARGET_DIR p
  if pathExists fs full then some full
  else findInWalk walk (basename full)

/-! ## The oracle and `generate_fix` (`agent.py` lines 76-148) -/

/-- Outcome of one `model.generate_content` call: a reply text, or a
`google_api_exceptions.GoogleAPIError` (caught at lines 138-140). -/
inductive OracleResult where
  | text (s : String)
  | apiError
deriving DecidableEq

/-- Lines 119-133 of `agent.py`: the prompt string sent to the oracle. -/
def buildPrompt (stderrText fp src : String) : String :=
  "You are an expert developer. Fix the code based on the error message.\n"
  ++ ("The error is:\n" ++ stderrText ++ "\n")
  ++ ("The code for " ++ fp ++ " is:\n```python\n" ++ src ++ "\n```")
  ++ "\nProvide only the complete, corrected Python code for the file, without any explanations or markdown formatting like ```python."

/-- Result of `generate_fix` plus the externally visible effects it performed:
how many file opens-for-read and oracle calls happened. -/
structure GenResult where
  result : Option (String × String)
  reads : Nat
  oracleCalls : Nat
deriving DecidableEq

/-- `generate_fix(stderr)` (lines 76-148).  `none` models the `None, None`
returns: unparsable path, file not found, `IOError` while reading (a file
the walk named but that cannot be opened reads as `none` here), or an
oracle error.  On success the pair is the resolved path and the
fence-stripped reply. -/
def generate_fix (fs : Files) (walk : List (String × List String))
    (oracle : String → OracleResult) (stderrText : String) : GenResult :=
  match extractPathFromStderr stderrText with
  | none => { result := none, reads := 0, oracleCalls := 0 }
  | some raw =>
    match resolveTarget fs walk (cleanupPath raw) with
    | none => { result := none, reads := 0, oracleCalls := 0 }
    | some fp =>
      match lookupFile fs fp with
      | none => { result := none, reads := 1, oracleCalls := 0 }
      | some src =>
        match oracle (buildPrompt stderrText fp src) with
        | OracleResult.apiError => { result := none, reads := 1, oracleCalls := 1 }
        | OracleResult.text t =>
          { result := some (fp, stripFences t), reads := 1, oracleCalls := 1 }

/-- `apply_fix` (lines 151-159): whole-file overwrite. -/
def apply_fix (fs : Files) (fp code : String) : Files :=
  writeFile fs fp code

/-! ## Backup, restore, and the main loop (`agent.py` lines 32-56 and 162-214) -/

/-- Run state: the live target tree, the backup directory (`none` when the
backup directory does not exist), and counters for every externally visible
effect of the run. -/
structure AgentState where
  fs : Files
  backup : Option Files
  testRuns : Nat
  oracleCalls : Nat
  fileReads : Nat
  fileWrites : Nat
  restores : Nat
deriving DecidableEq

/-- `shutil.copytree(src, dst)` raises `FileExistsError` when the destination
directory already exists; it never merges into it. -/
def copytree (src : Files) : Option Files → Except String Files
  | some _ => Except.error "FileExistsError"
  | none => Except.ok src

/-- `backup_project` (lines 32-41): `rmtree` the backup directory if it
exists, then `copytree` the target into it. -/
def backupProject (s : AgentState) : Except String AgentState :=
  let cleared : Option Files := if s.backup.isSome then none else s.backup
  match copytree s.fs cleared with
  | Except.ok b => Except.ok { s with backup := some b }
  | Except.error e => Except.error e

/-- `restore_project` (lines 44-56): if the backup directory exists, remove
the target tree and copy the backup over it; otherwise log a warning and do
nothing. -/
def restoreProject (s : AgentState) : AgentState :=
  match s.backup with
  | some b => { s with fs := b, restores := s.restores + 1 }
  | none => s

/-- Outcome of one `run_tests()` call (lines 59-73).  `subprocess.run` with
`check=False` either returns a `CompletedProcess` (`ok`) or raises `OSError`
(for example `FileNotFoundError` when the runner cannot be started);
`check=False` means it never raises `subprocess.CalledProcessError`.  The
`calledProcessError` constructor is kept so that the dead `except` arms of
`run_tests` and `main` are still represented. -/
inductive TestRunResult where
  | ok (returncode : Int) (stdoutText stderrText : String)
  | oserror
  | calledProcessError
deriving DecidableEq

/-- The environment of one run: whether the initial `copytree` of
`backup_project` raises, the outcome of the k-th test-runner invocation, the
oracle reply to the k-th `generate_content` call as a function of the
prompt, the `os.walk` listing of the target tree, and whether the `open` in
`apply_fix` raises `IOError` during attempt k. -/
structure AgentEnv where
  backupRaises : Bool
  runResults : Nat → TestRunResult
  oracle : Nat → String → OracleResult
  walk : List (String × List String)
  writeRaises : Nat → Bool

/-- How one iteration of the `for attempt in range(MAX_ATTEMPTS)` body ends:
`brk` leaves the loop (a `break`, a `return`, or an exception that escapes
`main`, flagged by `uncaught`); `next` falls through to the next iteration. -/
inductive StepOut where
  | brk (s : AgentState) (uncaught : Bool)
  | next (s : AgentState)

/-- One iteration of the loop body of `main` (lines 171-208).

* `run_tests()` raising `OSError` is caught by neither the
  `except subprocess.CalledProcessError` of `run_tests` nor the one of
  `main`, so it escapes `main` with no restore (`uncaught := true`).
* a (dead) `CalledProcessError` would be caught: restore, `return`.
* return code 0: `break`, tests passed.
* otherwise diagnostic text is `stderr`, falling back to `stdout` when that
  is empty; `generate_fix` runs; `None` or empty results restore and break;
  an `IOError` from `apply_fix` restores and breaks (the write attempt is
  still counted); after a successful write on the final attempt the project
  is restored before the loop ends (lines 204-208). -/
def attemptStep (env : AgentEnv) (attempt : Nat) (s : AgentState) : StepOut :=
  match env.runResults attempt with
  | TestRunResult.oserror =>
    StepOut.brk { s with testRuns := s.testRuns + 1 } true
  | TestRunResult.calledProcessError =>
    StepOut.brk (restoreProject { s with testRuns := s.testRuns + 1 }) false
  | TestRunResult.ok rc stdoutText stderrText =>
    let s1 : AgentState := { s with testRuns := s.testRuns + 1 }
    if rc = 0 then StepOut.brk s1 false
    else
      let diag := if stderrText = "" then stdoutText else stderrText
      let g := generate_fix s1.fs env.walk (env.oracle s1.oracleCalls) diag
      let s2 : AgentState := { s1 with
        oracleCalls := s1.oracleCalls + g.oracleCalls,
        fileReads := s1.fileReads + g.reads }
      match g.result with
      | none => StepOut.brk (restoreProject s2) false
      | some (fp, code) =>
        if fp = "" ∨ code = "" then StepOut.brk (restoreProject s2) false
        else if env.writeRaises attempt then
          StepOut.brk (restoreProject { s2 with fileWrites := s2.fileWrites + 1 }) false
        else
          let s3 : AgentState := { s2 with
            fs := apply_fix s2.fs fp code,
            fileWrites := s2.fileWrites + 1 }
          if attempt = MAX_ATTEMPTS - 1 then StepOut.next (restoreProject s3)
          else StepOut.next s3

/-- The state carried out of an iteration, whichever way it ended. -/
def StepOut.state : StepOut → AgentState
  | StepOut.brk s _ => s
  | StepOut.next s => s

/-- Result of a whole run of `main`: the final state and whether an
exception escaped `main`. -/
structure MainResult where
  state : AgentState
  uncaught : Bool
deriving DecidableEq

/-- `for attempt in range(MAX_ATTEMPTS)` over the remaining attempt indices;
falling off the end reaches the `for`-`else` arm, which only logs. -/
def loopFrom (env : AgentEnv) : List Nat → AgentState → MainResult
  | [], s => { state := s, uncaught := false }
  | attempt :: rest, s =>
    match attemptStep env attempt s with
    | StepOut.brk s1 u => { state := s1, uncaught := u }
    | StepOut.next s1 => loopFrom env rest s1

def initState (fs0 : Files) (b0 : Option Files) : AgentState :=
  { fs := fs0, backup := b0, testRuns := 0, oracleCalls := 0,
    fileReads := 0, fileWrites := 0, restores := 0 }

/-- `main()` (lines 162-214): take the initial backup (an `IOError` there is
caught and ends the run with no attempt), then run the attempt loop. -/
def agentMain (env : AgentEnv) (fs0 : Files) (b0 : Option Files) : MainResult :=
  if env.backupRaises then { state := initState fs0 b0, uncaught := false }
  else
    match backupProject (initState fs0 b0) with
    | Except.error _ => { state := initState fs0 b0, uncaught := false }
    | Except.ok s1 => loopFrom env (List.range MAX_ATTEMPTS) s1

end Agent

namespace SmolDev

open Agent (pyStrip isPySpace)

/-! ## `smol_dev.py`: `sanitize_python_code` and `generate_agent_code` -/

/-- Does the text start with the fence ```` ``` ````? -/
def tickFenceAt (l : List Char) : Bool :=
  ("```".data).isPrefixOf l

/-- Can `\s*` followed by the closing fence match here?  Walks the
whitespace run, accepting as soon as the fence starts. -/
def wsThenFence : List Char → Bool
  | [] => false
  | c :: t =>
    if tickFenceAt (c :: t) then true
    else if isPySpace c then wsThenFence t
    else false

/-- The lazy group of `\s*(.*?)\s*``` ` under `re.DOTALL`: the shortest
prefix after which whitespace and the closing fence follow. -/
def fencedGroup : List Char → Option (List Char)
  | [] => none
  | c :: t =>
    if wsThenFence (c :: t) then some []
    else (fencedGroup t).map (fun x => c :: x)

/-- Attempt ``openF ++ \s*(.*?)\s*``` `` anchored here.  The first greedy
`\s*` takes the whole whitespace run after the opening fence: a closing
fence cannot begin inside that run, so no shorter choice is ever needed. -/
def fencedMatchAt (openF l : List Char) : Option (List Char) :=
  if openF.isPrefixOf l then
    fencedGroup ((l.drop openF.length).dropWhile isPySpace)
  else none

/-- `re.search` for the fenced-block patterns of `sanitize_python_code`. -/
def fencedSearch (openF : List Char) : List Char → Option (List Char)
  | [] => none
  | c :: t =>
    match fencedMatchAt openF (c :: t) with
    | some g => some g
    | none => fencedSearch openF t

/-- `sanitize_python_code(response_text)` (lines 55-76 of `smol_dev.py`).
`none` is the `None` return for a missing or empty reply (`if not
response_text`); otherwise the ```` ```python ```` block, then any fenced
block, then the raw text, each stripped. -/
def sanitize_python_code (responseText : Option String) : Option String :=
  match responseText with
  | none => none
  | some s =>
    if s = "" then none
    else
      match fencedSearch ("```python".data) s.data with
      | some g => some (pyStrip (String.mk g))
      | none =>
        match fencedSearch ("```".data) s.data with
        | some g => some (pyStrip (String.mk g))
        | none => some (pyStrip s)

/-- Outcome of one `model.generate_content` call in `generate_agent_code`:
a reply whose `.text` attribute is read with `getattr(.., None)`, a
`ResourceExhausted` (quota/rate) error, another `GoogleAPIError`, or any
other exception. -/
inductive GeminiOutcome where
  | reply (text : Option String)
  | resourceExhausted
  | apiFailure
  | otherFailure
deriving DecidableEq

/-- Externally visible actions of `generate_agent_code`, in order: one
`generate_content` call, or one of the `time.sleep` cooldowns (30 s for
`ResourceExhausted`, 10 s for other `GoogleAPIError`s, 5 s otherwise). -/
inductive SmolEvent where
  | callModel
  | sleep30
  | sleep10
  | sleep5
deriving DecidableEq

/-- Result of `generate_agent_code`: the returned code, or `none` for the
`sys.exit(1)` after all attempts fail, together with the action trace. -/
structure SmolResult where
  code : Option String
  events : List SmolEvent
deriving DecidableEq

/-- The `for attempt in range(3)` loop of `generate_agent_code` (lines
98-118): call the model; a sanitized non-empty reply is returned; a falsy
reply retries with no sleep; each exception class sleeps its cooldown and
retries. -/
def smolLoop (env : Nat → GeminiOutcome) : List Nat → List SmolEvent → SmolResult
  | [], evs => { code := none, events := evs }
  | attempt :: rest, evs =>
    let evs1 := evs ++ [SmolEvent.callModel]
    match env attempt with
    | GeminiOutcome.reply t =>
      match sanitize_python_code t with
      | some c =>
        if c = "" then smolLoop env rest evs1
        else { code := some c, events := evs1 }
      | none => smolLoop env rest evs1
    | GeminiOutcome.resourceExhausted => smolLoop env rest (evs1 ++ [SmolEvent.sleep30])
    | GeminiOutcome.apiFailure => smolLoop env rest (evs1 ++ [SmolEvent.sleep10])
    | GeminiOutcome.otherFailure => smolLoop env rest (evs1 ++ [SmolEvent.sleep5])

/-- `generate_agent_code(prompt_text, model)` (lines 96-121), as a function
of the per-attempt oracle outcome. -/
def generate_agent_code (env : Nat → GeminiOutcome) : SmolResult :=
  smolLoop env (List.range 3) []

end SmolDev

/-! ## Concrete run environments used by the theorems below -/

open Agent SmolDev

/-- A target tree holding one file. -/
def fsC1 : Agent.Files := [("../target_project/a.py", "print(2)")]

/-- Attempt 1: the suite fails naming `./a.py`; the oracle supplies a fenced
fix, which is applied.  Attempt 2: `subprocess.run` raises `OSError` (the
runner cannot be started). -/
def envC1 : Agent.AgentEnv :=
  { backupRaises := false,
    runResults := fun n =>
      if n = 0 then Agent.TestRunResult.ok 1 "" "./a.py:1: AssertionError"
      else Agent.TestRunResult.oserror,
    oracle := fun _ _ => Agent.OracleResult.text "```python\nprint(3)\n```",
    walk := [],
    writeRaises := fun _ => false }

/-- The very first `subprocess.run` raises `OSError`. -/
def envC7 : Agent.AgentEnv :=
  { backupRaises := false,
    runResults := fun _ => Agent.TestRunResult.oserror,
    oracle := fun _ _ => Agent.OracleResult.apiError,
    walk := [],
    writeRaises := fun _ => false }

/-- Every test run passes immediately. -/
def envC3W : Agent.AgentEnv :=
  { backupRaises := false,
    runResults := fun _ => Agent.TestRunResult.ok 0 "" "",
    oracle := fun _ _ => Agent.OracleResult.apiError,
    walk := [],
    writeRaises := fun _ => false }

/-- A tree where the diagnosed path only exists away from its verbatim
location. -/
def fsC6 : Agent.Files := [("../target_project/sub/mod.py", "print(9)")]

def orcC6 : String → Agent.OracleResult := fun _ => Agent.OracleResult.text "x"

/-- First oracle call raises a permanent `GoogleAPIError`; the second call
returns a fenced program. -/
def envC9bug : Nat → SmolDev.GeminiOutcome := fun n =>
  if n = 0 then SmolDev.GeminiOutcome.apiFailure
  else SmolDev.GeminiOutcome.reply (some "```python\nprint(1)\n```")

/-- One outcome of each error class, in order: quota exhaustion, permanent
API error, unexpected exception. -/
def envC9all : Nat → SmolDev.GeminiOutcome := fun n =>
  if n = 0 then SmolDev.GeminiOutcome.resourceExhausted
  else if n = 1 then SmolDev.GeminiOutcome.apiFailure
  else SmolDev.GeminiOutcome.otherFailure

/-! ## Helper lemmas -/

theorem hasPyColon_head (c : Char) (t : List Char) (h : hasPyColon (c :: t) = false) :
    pyColonAt (c :: t) = false := by
  simp [hasPyColon] at h
  exact h.1

theorem hasPyColon_tail (c : Char) (t : List Char) (h : hasPyColon (c :: t) = false) :
    hasPyColon t = false := by
  simp [hasPyColon] at h
  exact h.2

theorem pyColonAt_false_of (l : List Char) (h : hasPyColon l = false) :
    pyColonAt l = false := by
  cases l with
  | nil => rfl
  | cons c t => exact hasPyColon_head c t h

theorem hasPyColon_drop (n : Nat) (l : List Char) (h : hasPyColon l = false) :
    hasPyColon (l.drop n) = false := by
  induction n generalizing l with
  | zero => simpa using h
  | succ n ih =>
    cases l with
    | nil => rfl
    | cons c t => simpa using ih t (hasPyColon_tail c t h)

theorem scanLazy_eq_none (l : List Char) (h : hasPyColon l = false) :
    scanLazy l = none := by
  induction l with
  | nil => rfl
  | cons c t ih =>
    have h1 := hasPyColon_head c t h
    have h2 := hasPyColon_tail c t h
    simp [scanLazy, h1, ih h2]

theorem matchAt1_eq_none (l : List Char) (h : hasPyColon l = false) :
    matchAt1 l = none := by
  cases l with
  | nil => rfl
  | cons c1 t1 =>
    cases t1 with
    | nil => rfl
    | cons c2 rest =>
      by_cases hc : (c1 == '.' && c2 == '/') = true
      · have hr : hasPyColon rest = false :=
          hasPyColon_tail c2 rest (hasPyColon_tail c1 (c2 :: rest) h)
        simp [matchAt1, hc, scanLazy_eq_none rest hr]
      · simp [matchAt1, hc]

theorem search1_eq_none (l : List Char) (h : hasPyColon l = false) :
    search1 l = none := by
  induction l with
  | nil => rfl
  | cons c t ih =>
    simp [search1, matchAt1_eq_none (c :: t) h, ih (hasPyColon_tail c t h)]

theorem matchAt2_eq_none (l : List Char) (h : hasPyColon l = false) :
    matchAt2 l = none := by
  have hp : pyColonAt (l.drop (l.takeWhile wordClass).length) = false :=
    pyColonAt_false_of _ (hasPyColon_drop _ l h)
  simp [matchAt2, hp]

theorem search2_eq_none (l : List Char) (h : hasPyColon l = false) :
    search2 l = none := by
  induction l with
  | nil => rfl
  | cons c t ih =>
    simp [search2, matchAt2_eq_none (c :: t) h, ih (hasPyColon_tail c t h)]

theorem extract_eq_none (s : String) (h : hasPyColon s.data = false) :
    extractPathFromStderr s = none := by
  simp [extractPathFromStderr, search1_eq_none s.data h, search2_eq_none s.data h]

theorem lookupFile_writeFile (fs : Agent.Files) (p c : String) :
    lookupFile (writeFile fs p c) p = some c := by
  induction fs with
  | nil => simp [writeFile, lookupFile]
  | cons hd t ih =>
    obtain ⟨q, d⟩ := hd
    by_cases hq : q = p
    · simp [writeFile, hq, lookupFile]
    · simp [writeFile, hq, lookupFile, ih]

theorem findInWalk_none (walk : List (String × List String)) (b : String)
    (h : ∀ e ∈ walk, b ∉ e.2) : findInWalk walk b = none := by
  induction walk with
  | nil => rfl
  | cons hd t ih =>
    obtain ⟨root, files⟩ := hd
    have hb : b ∉ files := h (root, files) (List.mem_cons_self _ _)
    simp only [findInWalk]
    rw [if_neg hb]
    exact ih fun e he => h e (List.mem_cons_of_mem _ he)

theorem findInWalk_mem (walk : List (String × List String)) (b : String)
    (h : ∃ e ∈ walk, b ∈ e.2) :
    ∃ root files, (root, files) ∈ walk ∧ b ∈ files
      ∧ findInWalk walk b = some (joinPath root b) := by
  induction walk with
  | nil =>
    obtain ⟨e, he, _⟩ := h
    cases he
  | cons hd t ih =>
    obtain ⟨r, fl⟩ := hd
    by_cases hb : b ∈ fl
    · exact ⟨r, fl, List.mem_cons_self _ _, hb, by simp [findInWalk, hb]⟩
    · have h2 : ∃ e ∈ t, b ∈ e.2 := by
        obtain ⟨e, he, hbe⟩ := h
        rcases List.mem_cons.mp he with rfl | htl
        · exact absurd hbe hb
        · exact ⟨e, htl, hbe⟩
      obtain ⟨root, files, hmem, hbf, hfind⟩ := ih h2
      exact ⟨root, files, List.mem_cons_of_mem _ hmem, hbf,
        by simp [findInWalk, hb, hfind]⟩

theorem restoreProject_testRuns (s : Agent.AgentState) :
    (restoreProject s).testRuns = s.testRuns := by
  cases h : s.backup <;> simp [restoreProject, h]

theorem backupProject_ok (s : Agent.AgentState) :
    backupProject s = Except.ok { s with backup := some s.fs } := by
  cases h : s.backup <;> simp [backupProject, copytree, h]

theorem attemptStep_testRuns (env : Agent.AgentEnv) (attempt : Nat) (s : Agent.AgentState) :
    ((attemptStep env attempt s).state).testRuns = s.testRuns + 1 := by
  unfold attemptStep
  cases hr : env.runResults attempt with
  | oserror => simp [StepOut.state]
  | calledProcessError => simp [StepOut.state, restoreProject_testRuns]
  | ok rc outT errT =>
    by_cases hrc : rc = 0
    · simp [hrc, StepOut.state]
    · simp only [hrc, if_false]
      split
      · simp [StepOut.state, restoreProject_testRuns]
      · split
        · simp [StepOut.state, restoreProject_testRuns]
        · split
          · simp [StepOut.state, restoreProject_testRuns]
          · split <;> simp [StepOut.state, restoreProject_testRuns]

theorem loopFrom_testRuns_le (env : Agent.AgentEnv) (l : List Nat) (s : Agent.AgentState) :
    (loopFrom env l s).state.testRuns ≤ s.testRuns + l.length := by
  induction l generalizing s with
  | nil => simp [loopFrom]
  | cons a rest ih =>
    have hstep := attemptStep_testRuns env a s
    simp only [loopFrom]
    cases hs : attemptStep env a s with
    | brk s1 u =>
      rw [hs] at hstep
      simp only [StepOut.state] at hstep
      simp [hstep]
    | next s1 =>
      rw [hs] at hstep
      simp only [StepOut.state] at hstep
      have h2 := ih s1
      simp only [List.length_cons]
      omega

/-! ## Claim theorems -/

/-- C2: For every run of the agent main loop, regardless of which failure
categories occur in which order, the test runner is invoked at most
MAX_ATTEMPTS (= 3) times. -/
theorem agent_testRuns_le_max (env : Agent.AgentEnv) (fs0 : Agent.Files)
    (b0 : Option Agent.Files) :
    (agentMain env fs0 b0).state.testRuns ≤ MAX_ATTEMPTS ∧ MAX_ATTEMPTS = 3 := by
  refine ⟨?_, rfl⟩
  unfold agentMain
  by_cases hb : env.backupRaises
  · simp [hb, initState, MAX_ATTEMPTS]
  · simp only [hb, if_false, Bool.false_eq_true]
    rw [backupProject_ok]
    have h := loopFrom_testRuns_le env (List.range MAX_ATTEMPTS)
      { initState fs0 b0 with backup := some (initState fs0 b0).fs }
    simp only [initState, List.length_range] at h
    simpa using h

/-- C3: If the first test-runner invocation of an agent run reports success
(exit status 0), the run performs no oracle call, no source-file read, and
no file write, and does not restore from backup; the live tree is left
exactly as it was (the only change outside it is the fresh backup taken by
`backup_project` before the loop). -/
theorem agent_first_pass_no_effects (env : Agent.AgentEnv) (fs0 : Agent.Files)
    (b0 : Option Agent.Files) (outT errT : String)
    (hb : env.backupRaises = false)
    (h0 : env.runResults 0 = Agent.TestRunResult.ok 0 outT errT) :
    agentMain env fs0 b0 =
      { state := { fs := fs0, backup := some fs0, testRuns := 1, oracleCalls := 0,
                   fileReads := 0, fileWrites := 0, restores := 0 },
        uncaught := false } := by
  have hrange : List.range MAX_ATTEMPTS = [0, 1, 2] := rfl
  unfold agentMain
  rw [hb]
  simp only [if_false, Bool.false_eq_true]
  rw [backupProject_ok, hrange]
  simp [loopFrom, attemptStep, h0, initState]

/-- Witness for C3 at a concrete environment whose first test run passes. -/
theorem agent_first_pass_no_effects_witness :
    agentMain envC3W [("../target_project/a.py", "print(2)")] none =
      { state := { fs := [("../target_project/a.py", "print(2)")],
                   backup := some [("../target_project/a.py", "print(2)")],
                   testRuns := 1, oracleCalls := 0, fileReads := 0, fileWrites := 0,
                   restores := 0 },
        uncaught := false } :=
  agent_first_pass_no_effects envC3W [("../target_project/a.py", "print(2)")] none
    "" "" rfl rfl

/-- C1 (code bug): the rollback guarantee has a hole.  In this concrete run,
attempt 1 applies a whole-file fix (so the live tree differs from the
backup), and on attempt 2 `subprocess.run` raises `OSError` because the
runner cannot start; `run_tests` and `main` only catch
`subprocess.CalledProcessError` — which `subprocess.run(check=False)` never
raises — so the exception escapes `main` with no restore: the run ends
neither tests-passing nor byte-identical to the backup. -/
theorem agent_exits_unrestored_after_runner_oserror :
    (agentMain envC1 fsC1 none).uncaught = true
    ∧ (agentMain envC1 fsC1 none).state.restores = 0
    ∧ (agentMain envC1 fsC1 none).state.backup = some fsC1
    ∧ lookupFile (agentMain envC1 fsC1 none).state.fs "../target_project/a.py"
        = some "print(3)"
    ∧ (agentMain envC1 fsC1 none).state.fs ≠ fsC1
    ∧ (agentMain envC1 fsC1 none).state.fileWrites = 1 := by
  decide

/-- C7 (code bug): a failure of the test-runner invocation itself (the
runner cannot be started: `subprocess.run` raises `OSError`) is not caught
anywhere — the `except subprocess.CalledProcessError` arms of `run_tests`
and `main` are dead because `check=False` never raises that — so the run
exits with the exception propagating and without restoring from backup. -/
theorem runner_start_failure_unrestored :
    (agentMain envC7 [("../target_project/b.py", "x = 1")] none).uncaught = true
    ∧ (agentMain envC7 [("../target_project/b.py", "x = 1")] none).state.restores = 0
    ∧ (agentMain envC7 [("../target_project/b.py", "x = 1")] none).state.testRuns = 1
    ∧ (agentMain envC7 [("../target_project/b.py", "x = 1")] none).state.fs
        = [("../target_project/b.py", "x = 1")] := by
  decide

/-- C4: path extraction of `generate_fix`. On `./pkg/mod.py:42:
AssertionError` the extracted reference is `pkg/mod.py`; the relative
pattern is tried first and wins even when the permissive pattern would
match earlier text; on any text that does not contain the substring `.py:`
(so no token ending in `.py:`) both patterns fail and `generate_fix`
returns the failure result `None, None`. -/
theorem path_extraction_spec (s : String) (fs : Agent.Files)
    (walk : List (String × List String)) (orc : String → Agent.OracleResult)
    (h : hasPyColon s.data = false) :
    extractedRef "./pkg/mod.py:42: AssertionError" = some "pkg/mod.py"
    ∧ extractedRef "x/y.py: see ./pkg/mod2.py: fail" = some "pkg/mod2.py"
    ∧ extractedRef "tests/unit.py:7: error" = some "tests/unit.py"
    ∧ (∀ u : String, ∀ g : List Char, search1 u.data = some g →
        extractPathFromStderr u = some (String.mk g))
    ∧ extractPathFromStderr s = none
    ∧ (generate_fix fs walk orc s).result = none := by
  refine ⟨by decide, by decide, by decide, ?_, extract_eq_none s h, ?_⟩
  · intro u g hg
    simp [extractPathFromStderr, hg]
  · simp [generate_fix, extract_eq_none s h]

/-- Witness for C4 on diagnostic text with no `.py:` token. -/
theorem path_extraction_spec_witness :
    extractPathFromStderr "collected 3 items" = none
    ∧ extractedRef "./pkg/mod.py:42: AssertionError" = some "pkg/mod.py" := by
  have h := path_extraction_spec "collected 3 items" [] []
    (fun _ => Agent.OracleResult.apiError) (by decide)
  exact ⟨h.2.2.2.2.1, h.1⟩

/-- C5: for the oracle reply `` ```python\nprint(1)\n``` `` the
fence-stripping step of `generate_fix` yields exactly `print(1)`, and that
is the full content `apply_fix` leaves in the target file. -/
theorem fence_stripping_applied (fs : Agent.Files) (p : String) :
    stripFences "```python\nprint(1)\n```" = "print(1)"
    ∧ lookupFile (apply_fix fs p (stripFences "```python\nprint(1)\n```")) p
        = some "print(1)" := by
  have h : stripFences "```python\nprint(1)\n```" = "print(1)" := by decide
  refine ⟨h, ?_⟩
  rw [h]
  simpa [apply_fix] using lookupFile_writeFile fs p "print(1)"

/-- C6: when the extracted path does not exist verbatim under the target
directory, the walk fallback selects the first directory of the walk whose
file list holds the same base name, `generate_fix` continues with exactly
that path (so a successful fix is applied to it), and when no walk entry
holds the base name `generate_fix` returns the failure result `None, None`. -/
theorem fallback_search_spec (fs : Agent.Files)
    (walk : List (String × List String)) (orc : String → Agent.OracleResult)
    (s raw : String)
    (hx : extractPathFromStderr s = some raw)
    (hne : pathExists fs (joinPath TARGET_DIR (cleanupPath raw)) = false) :
    ((∃ e ∈ walk, basename (joinPath TARGET_DIR (cleanupPath raw)) ∈ e.2) →
      ∃ root files,
        (root, files) ∈ walk
        ∧ basename (joinPath TARGET_DIR (cleanupPath raw)) ∈ files
        ∧ resolveTarget fs walk (cleanupPath raw)
            = some (joinPath root (basename (joinPath TARGET_DIR (cleanupPath raw))))
        ∧ (∀ fp code, (generate_fix fs walk orc s).result = some (fp, code) →
            fp = joinPath root (basename (joinPath TARGET_DIR (cleanupPath raw)))))
    ∧ ((∀ e ∈ walk, basename (joinPath TARGET_DIR (cleanupPath raw)) ∉ e.2) →
      (generate_fix fs walk orc s).result = none) := by
  constructor
  · intro hex
    obtain ⟨root, files, hmem, hbf, hfind⟩ := findInWalk_mem walk _ hex
    have hrt : resolveTarget fs walk (cleanupPath raw)
        = some (joinPath root (basename (joinPath TARGET_DIR (cleanupPath raw)))) := by
      simp [resolveTarget, hne, hfind]
    refine ⟨root, files, hmem, hbf, hrt, ?_⟩
    intro fp code hres
    simp only [generate_fix, hx, hrt] at hres
    split at hres
    · simp at hres
    · split at hres
      · simp at hres
      · simp only [Option.some.injEq, Prod.mk.injEq] at hres
        exact hres.1.symm
  · intro hall
    have hfn : findInWalk walk (basename (joinPath TARGET_DIR (cleanupPath raw)))
        = none := findInWalk_none _ _ hall
    have hrt : resolveTarget fs walk (cleanupPath raw) = none := by
      simp [resolveTarget, hne, hfn]
    simp [generate_fix, hx, hrt]

/-- Witness for C6: with an empty walk no file of that base name exists, so
`generate_fix` fails. -/
theorem fallback_search_spec_witness :
    (generate_fix fsC6 [] orcC6 "E ./mod.py:3: boom").result = none :=
  (fallback_search_spec fsC6 [] orcC6 "E ./mod.py:3: boom" "./mod.py"
    (by decide) (by decide)).2 (by simp)

/-- C8: `backup_project` always deletes any prior backup and then takes a
fresh `copytree` of the current target tree: it succeeds whatever backup
existed before, the resulting backup equals the current target exactly (no
merge with the old backup), the target is untouched — and `copytree` into a
still-existing destination could only fail, never merge. -/
theorem backup_replaces_snapshot (s : Agent.AgentState) (old : Agent.Files) :
    backupProject s = Except.ok { s with backup := some s.fs }
    ∧ (∀ s1, backupProject s = Except.ok s1 → s1.backup = some s.fs ∧ s1.fs = s.fs)
    ∧ copytree s.fs (some old) = Except.error "FileExistsError" := by
  refine ⟨backupProject_ok s, ?_, rfl⟩
  intro s1 h
  rw [backupProject_ok] at h
  cases h
  simp

/-- C9 counterexample: a permanent oracle error (`GoogleAPIError` other
than `ResourceExhausted`) does not propagate out of `generate_agent_code`;
it is retried after a 10-second sleep, and here the retry succeeds. -/
theorem permanent_error_is_retried :
    generate_agent_code envC9bug =
      { code := some "print(1)",
        events := [SmolDev.SmolEvent.callModel, SmolDev.SmolEvent.sleep10,
                   SmolDev.SmolEvent.callModel] } := by
  decide

/-- C9 amended: in `generate_agent_code` every oracle error class is
retried — `ResourceExhausted` after a 30-second cooldown, any other
`GoogleAPIError` after 10 seconds, any other exception after 5 seconds —
and after 3 attempts without usable code the function exits the process
(`sys.exit(1)`, modelled as `code = none`) rather than propagating an
error to its caller. -/
theorem oracle_error_retry_policy (env : Nat → SmolDev.GeminiOutcome)
    (h0 : env 0 = SmolDev.GeminiOutcome.resourceExhausted)
    (h1 : env 1 = SmolDev.GeminiOutcome.apiFailure)
    (h2 : env 2 = SmolDev.GeminiOutcome.otherFailure) :
    generate_agent_code env =
      { code := none,
        events := [SmolDev.SmolEvent.callModel, SmolDev.SmolEvent.sleep30,
                   SmolDev.SmolEvent.callModel, SmolDev.SmolEvent.sleep10,
                   SmolDev.SmolEvent.callModel, SmolDev.SmolEvent.sleep5] } := by
  have hrange : List.range 3 = [0, 1, 2] := rfl
  simp [generate_agent_code, hrange, smolLoop, h0, h1, h2]

/-- Witness for the amended C9 at a concrete outcome sequence. -/
theorem oracle_error_retry_policy_witness :
    generate_agent_code envC9all =
      { code := none,
        events := [SmolDev.SmolEvent.callModel, SmolDev.SmolEvent.sleep30,
                   SmolDev.SmolEvent.callModel, SmolDev.SmolEvent.sleep10,
                   SmolDev.SmolEvent.callModel, SmolDev.SmolEvent.sleep5] } :=
  oracle_error_retry_policy envC9all rfl rfl rfl

/-- C10: `restore_project` with no backup directory is a silent no-op: it
returns normally and leaves the whole state, in particular the live target
tree, unchanged. -/
theorem restore_skips_missing_backup (s : Agent.AgentState) (h : s.backup = none) :
    restoreProject s = s := by
  simp [restoreProject, h]

/-- Witness for C10 at a concrete state with no backup. -/
theorem restore_skips_missing_backup_witness :
    restoreProject (initState [("f.py", "x = 2")] none) = initState [("f.py", "x = 2")] none :=
  restore_skips_missing_backup (initState [("f.py", "x = 2")] none) rfl
